import Mathlib

/-!
Verification of the fraud risk scoring engine in
`src/server/ml/fraud_prediction.py` (smartbankBD).

The Python functions are embedded shallowly over `ℚ`:

* Python dicts with a fixed key set become structures; optional dict keys
  become `Option` fields.  The feature dict built by
  `compute_features_for_cheque` always carries the same 20 keys, so
  `Features` has 20 plain `ℚ` fields; the key `payee_name`, which the rule
  engine reads (line 440) but the feature builder never writes, is kept as
  an `Option String` field defaulting to `none` so that the dict lookup
  `features.get('payee_name', '')` can be modelled faithfully.
* `float` arithmetic is modelled by exact rational arithmetic, Python
  `round` by round-half-to-even (`pyRound`), `timedelta.days` by `⌊·/86400⌋`
  over timestamps in seconds.
* The external anomaly model (joblib model + scaler, lines 656-665) is out
  of scope of the spec (§1, §4.4): an evaluation with the model available
  is represented by `some raw` where `raw` is the model's raw output for
  the scaled feature vector; `none` is the missing-model fallback.
* Database access (`get_account_profile`, `get_recent_transactions`) is
  likewise externalized: the fetched profile and recent transactions are
  inputs.  `datetime.now()` is abstracted by a `Clock` input, and the
  `strptime` date parsing by the parsed weekday carried on the cheque.
* Rule trigger records keep the rule identifier and point contribution;
  the f-string `reason` texts are presentation-only and not modelled.
-/

namespace SmartBank

/-- ASCII lowering of a string, modelling Python `str.lower()` on the ASCII
payee aliases compared at line 440-441. -/
def strLower (s : String) : String := ⟨s.data.map Char.toLower⟩

/-- Python `x or d` on an optional numeric dict entry: the entry's value when
present and nonzero (truthy), else `d`. -/
def pyOr (o : Option ℚ) (d : ℚ) : ℚ := if o.getD 0 ≠ 0 then o.getD 0 else d

/-- Round a rational to the nearest integer, ties to the even integer:
the rounding mode of Python's built-in `round`. -/
def roundHalfToEven (y : ℚ) : ℤ :=
  if y - ⌊y⌋ < 1/2 then ⌊y⌋
  else if 1/2 < y - ⌊y⌋ then ⌊y⌋ + 1
  else if ⌊y⌋ % 2 = 0 then ⌊y⌋ else ⌊y⌋ + 1

/-- Python `round(x, d)` on exact rationals. -/
def pyRound (x : ℚ) (d : ℕ) : ℚ := (roundHalfToEven (x * 10 ^ d) : ℚ) / 10 ^ d

/-- One fired heuristic rule (`triggered_rules` list entries): rule
identifier and point contribution.  The `reason` f-string is not modelled. -/
structure RuleTrigger where
  rule : String
  points : ℚ
deriving DecidableEq

/-- The 20-field feature dict built by `compute_features_for_cheque`
(lines 202-348), plus the `payee_name` key read by the rule engine at
line 440: the builder never writes that key, which the default `none`
records. -/
structure Features where
  amount_zscore : ℚ
  amount_to_max_ratio : ℚ
  amount_to_balance_ratio : ℚ
  is_above_max : ℚ
  is_new_payee : ℚ
  payee_frequency : ℚ
  unique_payee_ratio : ℚ
  hour_of_day : ℚ
  day_of_week : ℚ
  is_weekend : ℚ
  is_night_transaction : ℚ
  is_unusual_hour : ℚ
  txn_count_24h : ℚ
  txn_count_7d : ℚ
  days_since_last_txn : ℚ
  is_dormant : ℚ
  account_age_days : ℚ
  bounce_rate : ℚ
  avg_balance : ℚ
  signature_score : ℚ
  payee_name : Option String := none
deriving DecidableEq

/-- Customer profile row fetched by `get_account_profile`; every field may be
NULL/absent, and timestamps are seconds since the epoch. -/
structure Profile where
  avg_transaction_amt : Option ℚ := none
  max_transaction_amt : Option ℚ := none
  min_transaction_amt : Option ℚ := none
  stddev_transaction_amt : Option ℚ := none
  total_transaction_count : Option ℚ := none
  bounce_rate : Option ℚ := none
  usual_hours : List ℤ := []
  balance : Option ℚ := none
  account_created_at : Option ℚ := none
  unique_payee_count : Option ℚ := none
deriving DecidableEq

/-- Extracted cheque payload (`cheque_data`).  The `date` string is
abstracted by its parse result: `none` — key absent, `some none` — present
but unparseable under both accepted formats, `some (some w)` — parseable
with weekday `w` (Monday = 0). -/
structure ChequeData where
  accountNumber : Option String := none
  amountDigits : Option ℚ := none
  payeeName : Option String := none
  date : Option (Option ℤ) := none
  chequeNumber : Option String := none

/-- One recent transaction row (`get_recent_transactions`), timestamp in
seconds since the epoch. -/
structure Txn where
  receiver_name : Option String := none
  created_at : Option ℚ := none
deriving DecidableEq

/-- The ambient `datetime.now()` of the evaluation: timestamp in seconds,
its hour of day, and its weekday (Monday = 0). -/
structure Clock where
  now : ℚ
  hour : ℤ
  weekday : ℤ

/-- Trusted self-transfer aliases of line 441 (note the empty string is a
member). -/
def trustedAliases : List String := ["self", "cash", "self withdrawal", ""]

/-- Rule 1, lines 368-398: amount anomaly, tiered on `abs(amount_zscore)`. -/
def amountRule (amount_zscore : ℚ) : ℚ × List RuleTrigger :=
  let az := |amount_zscore|
  if az > 10 then (25, [{ rule := "extreme_amount", points := 25 }])
  else if az > 5 then (18, [{ rule := "very_high_amount", points := 18 }])
  else if az > 3 then (10, [{ rule := "high_amount", points := 10 }])
  else if az > 2 then (5, [{ rule := "moderate_amount", points := 5 }])
  else (0, [])

/-- Rule 2, lines 400-416: balance usage. -/
def balanceRule (balance_ratio : ℚ) : ℚ × List RuleTrigger :=
  if balance_ratio > 1 then (15, [{ rule := "exceeds_balance", points := 15 }])
  else if balance_ratio > 9/10 then (8, [{ rule := "high_balance_usage", points := 8 }])
  else (0, [])

/-- Rule 3, lines 418-434: exceeds historical max. -/
def maxRule (is_above_max max_ratio : ℚ) : ℚ × List RuleTrigger :=
  if is_above_max = 1 then
    if max_ratio > 2 then (10, [{ rule := "exceeds_max", points := 10 }])
    else if max_ratio > 3/2 then (5, [{ rule := "above_max", points := 5 }])
    else (0, [])
  else (0, [])

/-- Rule 4, lines 436-447: new payee.  `payee_name_entry` is the value of
the (never written) `payee_name` key of the feature dict, looked up with
default `''`. -/
def payeeRule (is_new_payee : ℚ) (payee_name_entry : Option String) : ℚ × List RuleTrigger :=
  if is_new_payee = 1 then
    let payee_name := strLower (payee_name_entry.getD "")
    if payee_name ∉ trustedAliases then (3, [{ rule := "new_payee", points := 3 }])
    else (0, [])
  else (0, [])

/-- Rule 5, lines 449-465: account age. -/
def ageRule (account_age : ℚ) : ℚ × List RuleTrigger :=
  if account_age < 14 then (5, [{ rule := "very_new_account", points := 5 }])
  else if account_age < 30 then (2, [{ rule := "new_account", points := 2 }])
  else (0, [])

/-- Rule 6, lines 467-477: night transaction. -/
def nightRule (is_night_transaction : ℚ) : ℚ × List RuleTrigger :=
  if is_night_transaction = 1 then (4, [{ rule := "night_transaction", points := 4 }])
  else (0, [])

/-- Rule 7, lines 479-495: dormant account. -/
def dormantRule (is_dormant days_inactive : ℚ) : ℚ × List RuleTrigger :=
  if is_dormant = 1 then
    if days_inactive > 180 then (8, [{ rule := "long_dormant", points := 8 }])
    else if days_inactive > 90 then (4, [{ rule := "dormant_account", points := 4 }])
    else (0, [])
  else (0, [])

/-- Rule 8, lines 497-520: signature confidence. -/
def signatureRule (sig_score : ℚ) : ℚ × List RuleTrigger :=
  if sig_score < 40 then (20, [{ rule := "signature_mismatch", points := 20 }])
  else if sig_score < 60 then (12, [{ rule := "low_signature_confidence", points := 12 }])
  else if sig_score < 70 then (5, [{ rule := "moderate_signature_confidence", points := 5 }])
  else (0, [])

/-- Rule 9, lines 522-538: bounce history.  (Rule 10, weekend, is
deliberately absent: lines 540-542.) -/
def bounceRule (bounce_rate : ℚ) : ℚ × List RuleTrigger :=
  if bounce_rate > 15/100 then (10, [{ rule := "high_bounce_rate", points := 10 }])
  else if bounce_rate > 8/100 then (5, [{ rule := "moderate_bounce_rate", points := 5 }])
  else (0, [])

/-- The accumulated `score` of `compute_rule_based_score` before
normalization: sum of the ten category contributions. -/
def rulePointsTotal (f : Features) : ℚ :=
  (amountRule f.amount_zscore).1 + (balanceRule f.amount_to_balance_ratio).1 +
  (maxRule f.is_above_max f.amount_to_max_ratio).1 + (payeeRule f.is_new_payee f.payee_name).1 +
  (ageRule f.account_age_days).1 + (nightRule f.is_night_transaction).1 +
  (dormantRule f.is_dormant f.days_since_last_txn).1 + (signatureRule f.signature_score).1 +
  (bounceRule f.bounce_rate).1

/-- The accumulated `triggered_rules` list, in source order. -/
def ruleTriggersAll (f : Features) : List RuleTrigger :=
  (amountRule f.amount_zscore).2 ++ (balanceRule f.amount_to_balance_ratio).2 ++
  (maxRule f.is_above_max f.amount_to_max_ratio).2 ++ (payeeRule f.is_new_payee f.payee_name).2 ++
  (ageRule f.account_age_days).2 ++ (nightRule f.is_night_transaction).2 ++
  (dormantRule f.is_dormant f.days_since_last_txn).2 ++ (signatureRule f.signature_score).2 ++
  (bounceRule f.bounce_rate).2

/-- Trust discount for a zero bounce rate, line 550-551. -/
def discBounce (bounce_rate : ℚ) : ℚ := if bounce_rate = 0 then 5/100 else 0

/-- Trust discount for account age, lines 552-555. -/
def discAge (account_age_days : ℚ) : ℚ :=
  if account_age_days > 180 then 5/100 else if account_age_days > 60 then 3/100 else 0

/-- Trust discount for signature score, lines 556-559. -/
def discSig (signature_score : ℚ) : ℚ :=
  if signature_score ≥ 80 then 5/100 else if signature_score ≥ 70 then 3/100 else 0

/-- The additive trust discount accumulated at lines 548-559 (before the
15% cap).  In the source this accumulation runs only under `if profile:`. -/
def trustDiscount (f : Features) : ℚ :=
  discBounce f.bounce_rate + discAge f.account_age_days + discSig f.signature_score

/-- `compute_rule_based_score` (lines 355-568): category points and
triggers, `min(100, ·)` normalization (line 545), profile-gated trust
discounts capped at 15% (lines 547-563), final clamp to [0,100]
(line 566). -/
def compute_rule_based_score (features : Features) (profile : Option Profile) :
    ℚ × List RuleTrigger :=
  let score := rulePointsTotal features
  let triggered_rules := ruleTriggersAll features
  let normalized_score := min 100 score
  let trust_discount : ℚ := if profile.isSome then trustDiscount features else 0
  let trust_discount := min trust_discount (15/100)
  let normalized_score := normalized_score * (1 - trust_discount)
  (max 0 (min 100 normalized_score), triggered_rules)

/-- `normalize_score` (lines 571-580): clamp to [0,100] and round to one
decimal. -/
def normalize_score (score : ℚ) : ℚ := pyRound (max 0 (min 100 score)) 1

/-- `compute_confidence_score` (lines 583-601). -/
def compute_confidence_score (features : Features) (triggered_rules : List RuleTrigger) : ℚ :=
  let base_confidence : ℚ := 3/4
  let base_confidence :=
    if features.amount_zscore ≠ 0 then base_confidence + 5/100 else base_confidence
  let base_confidence :=
    if features.account_age_days > 0 then base_confidence + 5/100 else base_confidence
  let base_confidence :=
    if features.signature_score > 0 then base_confidence + 8/100 else base_confidence
  let base_confidence :=
    if triggered_rules.length > 0 then base_confidence + 2/100 else base_confidence
  pyRound (min (99/100) base_confidence) 4

/-- The post-hoc good-indicator caps of `predict_fraud`, lines 686-694:
applied only when a profile was found. -/
def applyCaps (features : Features) (profileFound : Bool) (final_score : ℚ) : ℚ :=
  if profileFound then
    if features.signature_score ≥ 70 then
      let fs := min final_score 45
      if features.bounce_rate = 0 ∧ features.account_age_days > 60 then min fs 35 else fs
    else final_score
  else final_score

/-- The output record of `predict_fraud` (the fields the spec covers). -/
structure PredictResult where
  modelAvailable : Bool
  profileFound : Bool
  fraudScore : ℚ
  anomalyScore : ℚ
  confidence : ℚ
  riskLevel : String
  decision : String

/-- `predict_fraud` (lines 608-719) after feature computation: `mlRaw` is
`some raw` when the anomaly model is available and returns raw score `raw`
for this feature vector (lines 656-665), `none` when the model is missing.
Explanations/risk-factor assembly (lines 721-939) is presentation only and
not modelled. -/
def predict_fraud (features : Features) (profile : Option Profile) (mlRaw : Option ℚ) :
    PredictResult :=
  let use_ml_model := mlRaw.isSome
  let rp := compute_rule_based_score features profile
  let rule_score := rp.1
  let triggered_rules := rp.2
  let final_score : ℚ :=
    match mlRaw with
    | some raw_score =>
        let anomaly_score := max 0 (min 1 (1/2 - raw_score))
        let ml_fraud_score := anomaly_score * 100
        let blended_score := min (ml_fraud_score * (7/10)) rule_score
        normalize_score blended_score
    | none => normalize_score rule_score
  let final_score := applyCaps features profile.isSome final_score
  let final_score := max 0 (min 100 final_score)
  let final_score := pyRound final_score 1
  let confidence := compute_confidence_score features (if use_ml_model then [] else triggered_rules)
  let rl : String × String :=
    if final_score ≥ 70 then ("critical", "reject")
    else if final_score ≥ 50 then ("high", "review")
    else if final_score ≥ 30 then ("medium", "review")
    else ("low", "approve")
  { modelAvailable := true
    profileFound := profile.isSome
    fraudScore := final_score
    anomalyScore := pyRound (final_score / 100) 4
    confidence := confidence
    riskLevel := rl.1
    decision := rl.2 }

/-- The cheque amount resolution of lines 218-222: `amountDigits or 0`,
then the 10000 placeholder when zero. -/
def chequeAmount (cheque_data : ChequeData) : ℚ :=
  let amount := pyOr cheque_data.amountDigits 0
  if amount = 0 then 10000 else amount

/-- `compute_features_for_cheque` (lines 202-348). -/
def compute_features_for_cheque (cheque_data : ChequeData) (profile : Option Profile)
    (recent_txns : List Txn) (signature_score : ℚ) (clk : Clock) : Features :=
  let amount := chequeAmount cheque_data
  let amountPair : ℚ × ℚ :=
    match profile with
    | some p =>
        if p.stddev_transaction_amt.getD 0 ≠ 0 then
          let avg_amt := pyOr p.avg_transaction_amt 0
          let std_amt := pyOr p.stddev_transaction_amt 1
          let max_amt := pyOr p.max_transaction_amt amount
          (if std_amt > 0 then (amount - avg_amt) / std_amt else 0,
           if max_amt > 0 then amount / max_amt else 1)
        else (0, 1)
    | none => (0, 1)
  let balance : ℚ :=
    match profile with
    | some p => pyOr p.balance 100000
    | none => 100000
  let balance_ratio := if balance > 0 then amount / balance else 10
  let above_max : ℚ :=
    match profile with
    | some p =>
        if p.max_transaction_amt.getD 0 ≠ 0 then
          if amount > p.max_transaction_amt.getD 0 then 1 else 0
        else 0
    | none => 0
  let payee := cheque_data.payeeName.getD ""
  let past_receivers := (recent_txns.filterMap Txn.receiver_name).filter (· ≠ "")
  let payeeTriple : ℚ × ℚ × ℚ :=
    if recent_txns ≠ [] then
      (if payee ≠ "" ∧ payee ∈ past_receivers then 0 else 1,
       if payee ≠ "" then (past_receivers.count payee : ℚ) else 0,
       if past_receivers ≠ [] then
         (past_receivers.dedup.length : ℚ) / (past_receivers.length : ℚ)
       else 1)
    else (1, 0, 1)
  let dow : ℤ :=
    match cheque_data.date with
    | some (some w) => w
    | some none => clk.weekday
    | none => clk.weekday
  let hour := clk.hour
  let unusual_hour : ℚ :=
    match profile with
    | some p =>
        if p.usual_hours ≠ [] then (if hour ∈ p.usual_hours then 0 else 1)
        else if 9 ≤ hour ∧ hour ≤ 17 then 0 else 1
    | none => if 9 ≤ hour ∧ hour ≤ 17 then 0 else 1
  let timed := recent_txns.filterMap Txn.created_at
  let velocity : ℚ × ℚ × ℚ × ℚ :=
    if recent_txns ≠ [] then
      let txn_24h := (timed.filter (fun t => clk.now - t ≤ 86400)).length
      let txn_7d := (timed.filter (fun t => ⌊(clk.now - t) / 86400⌋ ≤ 7)).length
      let last_txn_time :=
        timed.foldl (fun acc t =>
          match acc with
          | none => some t
          | some m => if t > m then some t else some m) none
      let days_since : ℤ :=
        match last_txn_time with
        | some t => ⌊(clk.now - t) / 86400⌋
        | none => 0
      ((txn_24h : ℚ), (txn_7d : ℚ), (days_since : ℚ), if days_since > 90 then 1 else 0)
    else (0, 0, 0, 0)
  let age_days : ℤ :=
    match profile with
    | some p =>
        match p.account_created_at with
        | some created => ⌊(clk.now - created) / 86400⌋
        | none => 365
    | none => 365
  let bounce : ℚ :=
    match profile with
    | some p =>
        match p.bounce_rate with
        | some b => b / 100
        | none => 0
    | none => 0
  { amount_zscore := amountPair.1
    amount_to_max_ratio := amountPair.2
    amount_to_balance_ratio := balance_ratio
    is_above_max := above_max
    is_new_payee := payeeTriple.1
    payee_frequency := payeeTriple.2.1
    unique_payee_ratio := payeeTriple.2.2
    hour_of_day := (hour : ℚ)
    day_of_week := (dow : ℚ)
    is_weekend := if dow ≥ 5 then 1 else 0
    is_night_transaction := if hour < 6 ∨ hour > 21 then 1 else 0
    is_unusual_hour := unusual_hour
    txn_count_24h := velocity.1
    txn_count_7d := velocity.2.1
    days_since_last_txn := velocity.2.2.1
    is_dormant := velocity.2.2.2
    account_age_days := (age_days : ℚ)
    bounce_rate := bounce
    avg_balance := balance
    signature_score := signature_score
    payee_name := none }

/-- Modelled from the spec (claim C8's wording): the discounted rule score
with every trust discount eligible from the features alone, with no
profile gate.  For comparison with `compute_rule_based_score` only. -/
def claimed_discounted_score (f : Features) : ℚ :=
  max 0 (min 100 (rulePointsTotal f * (1 - min (trustDiscount f) (15/100))))

/-- Modelled from the spec (claim C9's wording): `amount_to_max_ratio`
said to be 0 when its denominator is non-positive. -/
def claimed_amount_to_max_ratio (amount max_amt : ℚ) : ℚ :=
  if max_amt > 0 then amount / max_amt else 0

/-- Modelled from the spec (claim C10's wording): confidence with the
+0.02 triggered-rule bonus applied whenever any rule triggered, regardless
of whether the anomaly model was used. -/
def claimed_confidence (f : Features) (anyRuleTriggered : Bool) : ℚ :=
  pyRound (min (99/100) (3/4
    + (if f.amount_zscore ≠ 0 then 5/100 else 0)
    + (if f.account_age_days > 0 then 5/100 else 0)
    + (if f.signature_score > 0 then 8/100 else 0)
    + (if anyRuleTriggered then 2/100 else 0))) 4

/-- Scenario A cheque of spec §8: amount 10000, a fresh (untrusted) payee
name, no account number. -/
def scenarioCheque : ChequeData := { amountDigits := some 10000, payeeName := some "John Doe" }

/-- A daytime processing clock (hour 12, a Wednesday). -/
def scenarioClock : Clock := { now := 1000000000, hour := 12, weekday := 2 }

/-- A night-time processing clock (hour 23). -/
def nightClock : Clock := { now := 1000000000, hour := 23, weekday := 2 }

/-- The feature vector `compute_features_for_cheque` produces for
`scenarioCheque` with no profile, no history, signature score 85, at
`scenarioClock`. -/
def baseFeatures : Features :=
  { amount_zscore := 0
    amount_to_max_ratio := 1
    amount_to_balance_ratio := 1/10
    is_above_max := 0
    is_new_payee := 1
    payee_frequency := 0
    unique_payee_ratio := 1
    hour_of_day := 12
    day_of_week := 2
    is_weekend := 0
    is_night_transaction := 0
    is_unusual_hour := 0
    txn_count_24h := 0
    txn_count_7d := 0
    days_since_last_txn := 0
    is_dormant := 0
    account_age_days := 365
    bounce_rate := 0
    avg_balance := 100000
    signature_score := 85 }

/-- Same evaluation processed at `nightClock`: the night rule triggers. -/
def nightFeatures : Features :=
  { baseFeatures with hour_of_day := 23, is_night_transaction := 1, is_unusual_hour := 1 }

/-- An empty (all fields NULL) profile row. -/
def baseProfile : Profile := {}

/-- Claim C9's counterexample profile: positive stddev but a negative
historical max. -/
def maxProfile : Profile :=
  { avg_transaction_amt := some 10
    stddev_transaction_amt := some 5
    max_transaction_amt := some (-3)
    balance := some 1000 }

/-- Claim C9's counterexample cheque: amount 100. -/
def maxCheque : ChequeData := { amountDigits := some 100, payeeName := some "John Doe" }

/-! ### Properties of the rounding model -/

theorem roundHalfToEven_floor_le (y : ℚ) : ⌊y⌋ ≤ roundHalfToEven y := by
  unfold roundHalfToEven
  split_ifs <;> omega

theorem roundHalfToEven_le_floor_add_one (y : ℚ) : roundHalfToEven y ≤ ⌊y⌋ + 1 := by
  unfold roundHalfToEven
  split_ifs <;> omega

theorem roundHalfToEven_mono {a b : ℚ} (h : a ≤ b) :
    roundHalfToEven a ≤ roundHalfToEven b := by
  rcases lt_or_le ⌊a⌋ ⌊b⌋ with hf | hf
  · calc roundHalfToEven a ≤ ⌊a⌋ + 1 := roundHalfToEven_le_floor_add_one a
      _ ≤ ⌊b⌋ := by omega
      _ ≤ roundHalfToEven b := roundHalfToEven_floor_le b
  · have hfe : ⌊a⌋ = ⌊b⌋ := le_antisymm (Int.floor_le_floor h) hf
    unfold roundHalfToEven
    rw [hfe]
    split_ifs <;> first | omega | linarith

theorem pyRound_mono {a b : ℚ} (h : a ≤ b) (d : ℕ) : pyRound a d ≤ pyRound b d := by
  unfold pyRound
  have hp : (0:ℚ) < 10 ^ d := by positivity
  have hm : a * 10 ^ d ≤ b * 10 ^ d := mul_le_mul_of_nonneg_right h hp.le
  have hc : ((roundHalfToEven (a * 10 ^ d) : ℚ)) ≤ (roundHalfToEven (b * 10 ^ d) : ℚ) := by
    exact_mod_cast roundHalfToEven_mono hm
  exact (div_le_div_iff_of_pos_right hp).mpr hc

theorem pyRound_eq_self {x : ℚ} (d : ℕ) (h : ∃ k : ℤ, (k : ℚ) / 10 ^ d = x) :
    pyRound x d = x := by
  obtain ⟨k, rfl⟩ := h
  unfold pyRound roundHalfToEven
  have hp : (10:ℚ) ^ d ≠ 0 := by positivity
  have hy : (k : ℚ) / 10 ^ d * 10 ^ d = (k : ℚ) := by field_simp
  rw [hy]
  norm_num [Int.floor_intCast]

theorem pyRound_idem (x : ℚ) (d : ℕ) : pyRound (pyRound x d) d = pyRound x d :=
  pyRound_eq_self d ⟨roundHalfToEven (x * 10 ^ d), rfl⟩

theorem pyRound_intCast (n : ℤ) (d : ℕ) : pyRound (n : ℚ) d = n := by
  refine pyRound_eq_self d ⟨n * 10 ^ d, ?_⟩
  push_cast
  field_simp

theorem pyRound_zero (d : ℕ) : pyRound 0 d = 0 := by
  have h := pyRound_intCast 0 d
  norm_num at h
  exact h

theorem pyRound_nonneg {x : ℚ} (h : 0 ≤ x) (d : ℕ) : 0 ≤ pyRound x d := by
  have := pyRound_mono h d
  rwa [pyRound_zero] at this

theorem pyRound_le_hundred {x : ℚ} (h : x ≤ 100) (d : ℕ) : pyRound x d ≤ 100 := by
  have h100 := pyRound_intCast 100 d
  norm_num at h100
  have := pyRound_mono h d
  rwa [h100] at this

theorem pyRound_min_fix {c : ℚ} {d : ℕ} (hc : pyRound c d = c) (x : ℚ) :
    pyRound (min x c) d = min (pyRound x d) c := by
  rcases le_total x c with h | h
  · rw [min_eq_left h, min_eq_left ((pyRound_mono h d).trans hc.le)]
  · rw [min_eq_right h, hc, min_eq_right (hc ▸ pyRound_mono h d)]

theorem pyRound_le_of_le_int {x : ℚ} {n : ℤ} (h : x ≤ n) (d : ℕ) : pyRound x d ≤ n := by
  have := pyRound_mono h d
  rwa [pyRound_intCast] at this

/-! ### Clamp helpers -/

theorem clamp_nonneg (z : ℚ) : 0 ≤ max 0 (min 100 z) := le_max_left _ _

theorem clamp_le_hundred (z : ℚ) : max 0 (min 100 z) ≤ 100 :=
  max_le (by norm_num) (min_le_left _ _)

theorem clamp_eq_of {z : ℚ} (h0 : 0 ≤ z) (h100 : z ≤ 100) : max 0 (min 100 z) = z := by
  rw [min_eq_right h100, max_eq_right h0]

/-! ### Bounds and monotonicity of the rule categories -/

theorem amountRule_nonneg (z : ℚ) : 0 ≤ (amountRule z).1 := by
  simp only [amountRule]
  split_ifs <;> norm_num

theorem amountRule_le (z : ℚ) : (amountRule z).1 ≤ 25 := by
  simp only [amountRule]
  split_ifs <;> norm_num

theorem balanceRule_nonneg (r : ℚ) : 0 ≤ (balanceRule r).1 := by
  simp only [balanceRule]
  split_ifs <;> norm_num

theorem balanceRule_le (r : ℚ) : (balanceRule r).1 ≤ 15 := by
  simp only [balanceRule]
  split_ifs <;> norm_num

theorem maxRule_nonneg (a r : ℚ) : 0 ≤ (maxRule a r).1 := by
  simp only [maxRule]
  split_ifs <;> norm_num

theorem maxRule_le (a r : ℚ) : (maxRule a r).1 ≤ 10 := by
  simp only [maxRule]
  split_ifs <;> norm_num

theorem payeeRule_nonneg (i : ℚ) (pn : Option String) : 0 ≤ (payeeRule i pn).1 := by
  simp only [payeeRule]
  split_ifs <;> norm_num

theorem payeeRule_le (i : ℚ) (pn : Option String) : (payeeRule i pn).1 ≤ 3 := by
  simp only [payeeRule]
  split_ifs <;> norm_num

theorem ageRule_nonneg (a : ℚ) : 0 ≤ (ageRule a).1 := by
  simp only [ageRule]
  split_ifs <;> norm_num

theorem ageRule_le (a : ℚ) : (ageRule a).1 ≤ 5 := by
  simp only [ageRule]
  split_ifs <;> norm_num

theorem nightRule_nonneg (n : ℚ) : 0 ≤ (nightRule n).1 := by
  simp only [nightRule]
  split_ifs <;> norm_num

theorem nightRule_le (n : ℚ) : (nightRule n).1 ≤ 4 := by
  simp only [nightRule]
  split_ifs <;> norm_num

theorem dormantRule_nonneg (i dy : ℚ) : 0 ≤ (dormantRule i dy).1 := by
  simp only [dormantRule]
  split_ifs <;> norm_num

theorem dormantRule_le (i dy : ℚ) : (dormantRule i dy).1 ≤ 8 := by
  simp only [dormantRule]
  split_ifs <;> norm_num

theorem signatureRule_nonneg (s : ℚ) : 0 ≤ (signatureRule s).1 := by
  simp only [signatureRule]
  split_ifs <;> norm_num

theorem signatureRule_le (s : ℚ) : (signatureRule s).1 ≤ 20 := by
  simp only [signatureRule]
  split_ifs <;> norm_num

theorem bounceRule_nonneg (b : ℚ) : 0 ≤ (bounceRule b).1 := by
  simp only [bounceRule]
  split_ifs <;> norm_num

theorem bounceRule_le (b : ℚ) : (bounceRule b).1 ≤ 10 := by
  simp only [bounceRule]
  split_ifs <;> norm_num

theorem rulePointsTotal_nonneg (f : Features) : 0 ≤ rulePointsTotal f := by
  unfold rulePointsTotal
  have h1 := amountRule_nonneg f.amount_zscore
  have h2 := balanceRule_nonneg f.amount_to_balance_ratio
  have h3 := maxRule_nonneg f.is_above_max f.amount_to_max_ratio
  have h4 := payeeRule_nonneg f.is_new_payee f.payee_name
  have h5 := ageRule_nonneg f.account_age_days
  have h6 := nightRule_nonneg f.is_night_transaction
  have h7 := dormantRule_nonneg f.is_dormant f.days_since_last_txn
  have h8 := signatureRule_nonneg f.signature_score
  have h9 := bounceRule_nonneg f.bounce_rate
  linarith

theorem rulePointsTotal_le_hundred (f : Features) : rulePointsTotal f ≤ 100 := by
  unfold rulePointsTotal
  have h1 := amountRule_le f.amount_zscore
  have h2 := balanceRule_le f.amount_to_balance_ratio
  have h3 := maxRule_le f.is_above_max f.amount_to_max_ratio
  have h4 := payeeRule_le f.is_new_payee f.payee_name
  have h5 := ageRule_le f.account_age_days
  have h6 := nightRule_le f.is_night_transaction
  have h7 := dormantRule_le f.is_dormant f.days_since_last_txn
  have h8 := signatureRule_le f.signature_score
  have h9 := bounceRule_le f.bounce_rate
  linarith

theorem amountRule_mono {z₁ z₂ : ℚ} (h : |z₁| ≤ |z₂|) :
    (amountRule z₁).1 ≤ (amountRule z₂).1 := by
  simp only [amountRule]
  split_ifs <;> first | linarith | norm_num

theorem signatureRule_anti {s₁ s₂ : ℚ} (h : s₂ ≤ s₁) :
    (signatureRule s₁).1 ≤ (signatureRule s₂).1 := by
  simp only [signatureRule]
  split_ifs <;> first | linarith | norm_num

theorem discBounce_nonneg (b : ℚ) : 0 ≤ discBounce b := by
  unfold discBounce
  split_ifs <;> norm_num

theorem discAge_nonneg (a : ℚ) : 0 ≤ discAge a := by
  unfold discAge
  split_ifs <;> norm_num

theorem discSig_nonneg (s : ℚ) : 0 ≤ discSig s := by
  unfold discSig
  split_ifs <;> norm_num

theorem discSig_mono {s₁ s₂ : ℚ} (h : s₂ ≤ s₁) : discSig s₂ ≤ discSig s₁ := by
  simp only [discSig]
  split_ifs <;> linarith

theorem trustDiscount_nonneg (f : Features) : 0 ≤ trustDiscount f := by
  unfold trustDiscount
  have h1 := discBounce_nonneg f.bounce_rate
  have h2 := discAge_nonneg f.account_age_days
  have h3 := discSig_nonneg f.signature_score
  linarith

theorem compute_rule_based_score_bounds (f : Features) (p : Option Profile) :
    0 ≤ (compute_rule_based_score f p).1 ∧ (compute_rule_based_score f p).1 ≤ 100 := by
  simp only [compute_rule_based_score]
  exact ⟨clamp_nonneg _, clamp_le_hundred _⟩

theorem compute_confidence_score_bounds (f : Features) (L : List RuleTrigger) :
    0 ≤ compute_confidence_score f L ∧ compute_confidence_score f L ≤ 99/100 := by
  have h99 : pyRound (99/100 : ℚ) 4 = 99/100 := pyRound_eq_self 4 ⟨9900, by norm_num⟩
  simp only [compute_confidence_score]
  constructor
  · refine pyRound_nonneg ?_ 4
    refine le_min (by norm_num) ?_
    split_ifs <;> norm_num
  · exact (pyRound_mono (min_le_left _ _) 4).trans h99.le

/-! ### Properties of the post-hoc caps -/

theorem applyCaps_le (f : Features) (hp : Bool) (s : ℚ) : applyCaps f hp s ≤ s := by
  simp only [applyCaps]
  split_ifs
  · exact le_trans (min_le_left _ _) (min_le_left _ _)
  · exact min_le_left _ _
  · exact le_rfl
  · exact le_rfl

theorem applyCaps_nonneg (f : Features) (hp : Bool) {s : ℚ} (h : 0 ≤ s) :
    0 ≤ applyCaps f hp s := by
  simp only [applyCaps]
  split_ifs
  · exact le_min (le_min h (by norm_num)) (by norm_num)
  · exact le_min h (by norm_num)
  · exact h
  · exact h

theorem applyCaps_le_45 {f : Features} (hsig : f.signature_score ≥ 70) (s : ℚ) :
    applyCaps f true s ≤ 45 := by
  simp only [applyCaps, if_true]
  rw [if_pos hsig]
  split_ifs
  · exact le_trans (min_le_left _ _) (min_le_right _ _)
  · exact min_le_right _ _

theorem applyCaps_le_35 {f : Features} (hsig : f.signature_score ≥ 70)
    (hb : f.bounce_rate = 0) (ha : f.account_age_days > 60) (s : ℚ) :
    applyCaps f true s ≤ 35 := by
  simp only [applyCaps, if_true]
  rw [if_pos hsig, if_pos ⟨hb, ha⟩]
  exact min_le_right _ _

theorem applyCaps_false (f : Features) (s : ℚ) : applyCaps f false s = s := by
  simp [applyCaps]

theorem applyCaps_pyRound (f : Features) (hp : Bool) (s : ℚ) :
    applyCaps f hp (pyRound s 1) = pyRound (applyCaps f hp s) 1 := by
  have h45 : pyRound (45:ℚ) 1 = 45 := pyRound_eq_self 1 ⟨450, by norm_num⟩
  have h35 : pyRound (35:ℚ) 1 = 35 := pyRound_eq_self 1 ⟨350, by norm_num⟩
  simp only [applyCaps]
  split_ifs
  · rw [pyRound_min_fix h35, pyRound_min_fix h45]
  · rw [pyRound_min_fix h45]
  · rfl
  · rfl

theorem pyRound_clamp_le_45 {x : ℚ} (h : x ≤ 45) : pyRound (max 0 (min 100 x)) 1 ≤ 45 := by
  have h1 : max 0 (min 100 x) ≤ ((45:ℤ):ℚ) := by
    push_cast
    exact max_le (by norm_num) ((min_le_right _ _).trans h)
  have h2 := pyRound_le_of_le_int h1 1
  exact_mod_cast h2

theorem pyRound_clamp_le_35 {x : ℚ} (h : x ≤ 35) : pyRound (max 0 (min 100 x)) 1 ≤ 35 := by
  have h1 : max 0 (min 100 x) ≤ ((35:ℤ):ℚ) := by
    push_cast
    exact max_le (by norm_num) ((min_le_right _ _).trans h)
  have h2 := pyRound_le_of_le_int h1 1
  exact_mod_cast h2

/-! ### The riskLevel/decision fields as functions of the final score -/

theorem predict_riskLevel_eq (f : Features) (p : Option Profile) (m : Option ℚ) :
    (predict_fraud f p m).riskLevel =
      (if (predict_fraud f p m).fraudScore ≥ 70 then "critical"
       else if (predict_fraud f p m).fraudScore ≥ 50 then "high"
       else if (predict_fraud f p m).fraudScore ≥ 30 then "medium"
       else "low") := by
  simp only [predict_fraud]
  split_ifs <;> rfl

theorem predict_decision_eq (f : Features) (p : Option Profile) (m : Option ℚ) :
    (predict_fraud f p m).decision =
      (if (predict_fraud f p m).fraudScore ≥ 70 then "reject"
       else if (predict_fraud f p m).fraudScore ≥ 50 then "review"
       else if (predict_fraud f p m).fraudScore ≥ 30 then "review"
       else "approve") := by
  simp only [predict_fraud]
  split_ifs <;> rfl

/-! ### Concrete evaluations used by witnesses and counterexamples -/

theorem strLower_empty : strLower "" = "" := rfl

theorem strLower_john : strLower "John Doe" = "john doe" := rfl

theorem payeeRule_none : payeeRule 1 none = (0, []) := by
  simp [payeeRule, strLower_empty, trustedAliases]

theorem payeeRule_john :
    payeeRule 1 (some "John Doe") = (3, [{ rule := "new_payee", points := 3 }]) := by
  simp [payeeRule, strLower_john, trustedAliases]

theorem rule_score_base_eval : compute_rule_based_score baseFeatures none = (0, []) := by
  norm_num [compute_rule_based_score, rulePointsTotal, ruleTriggersAll, amountRule,
    balanceRule, maxRule, payeeRule_none, ageRule, nightRule, dormantRule, signatureRule,
    bounceRule, baseFeatures, min_def, max_def, Prod.ext_iff]

theorem rule_score_night_eval :
    compute_rule_based_score nightFeatures none
      = (4, [{ rule := "night_transaction", points := 4 }]) := by
  norm_num [compute_rule_based_score, rulePointsTotal, ruleTriggersAll, amountRule,
    balanceRule, maxRule, payeeRule_none, ageRule, nightRule, dormantRule, signatureRule,
    bounceRule, nightFeatures, baseFeatures, min_def, max_def, Prod.ext_iff]

theorem rule_score_neg11_eval :
    (compute_rule_based_score { baseFeatures with amount_zscore := -11 } none).1 = 25 := by
  norm_num [compute_rule_based_score, rulePointsTotal, amountRule, balanceRule, maxRule,
    payeeRule_none, ageRule, nightRule, dormantRule, signatureRule, bounceRule,
    baseFeatures, min_def, max_def]

theorem predict_base_eval : (predict_fraud baseFeatures none none).fraudScore = 0 := by
  simp only [predict_fraud, rule_score_base_eval]
  norm_num [normalize_score, applyCaps, min_def, max_def, pyRound_zero]

theorem features_scenario_eval :
    compute_features_for_cheque scenarioCheque none [] 85 scenarioClock = baseFeatures := by
  norm_num [compute_features_for_cheque, chequeAmount, pyOr, scenarioCheque, scenarioClock,
    baseFeatures, Features.mk.injEq, min_def, max_def]

theorem features_night_eval :
    compute_features_for_cheque scenarioCheque none [] 85 nightClock = nightFeatures := by
  norm_num [compute_features_for_cheque, chequeAmount, pyOr, scenarioCheque, nightClock,
    nightFeatures, baseFeatures, Features.mk.injEq, min_def, max_def]

theorem predict_night_conf_eval :
    (predict_fraud nightFeatures none (some 0)).confidence = 88/100 := by
  have h88 : pyRound (22/25 : ℚ) 4 = 22/25 := pyRound_eq_self 4 ⟨8800, by norm_num⟩
  simp only [predict_fraud]
  norm_num [compute_confidence_score, nightFeatures, baseFeatures, min_def, h88]

theorem claimed_conf_eval : claimed_confidence nightFeatures true = 9/10 := by
  have h90 : pyRound (9/10 : ℚ) 4 = 9/10 := pyRound_eq_self 4 ⟨9000, by norm_num⟩
  norm_num [claimed_confidence, nightFeatures, baseFeatures, min_def, h90]

theorem claimed_disc_eval : claimed_discounted_score nightFeatures = 17/5 := by
  norm_num [claimed_discounted_score, rulePointsTotal, trustDiscount, discBounce, discAge,
    discSig, amountRule, balanceRule, maxRule, payeeRule_none, ageRule, nightRule,
    dormantRule, signatureRule, bounceRule, nightFeatures, baseFeatures, min_def, max_def]

/-! ### The claims -/

/-- C1: for every evaluation with the anomaly model available, the final
score is computed from the rule score and the model's raw output via
`blended = min(mlFraudScore * 0.7, ruleScore)` with
`mlFraudScore = clamp(0.5 - raw, 0, 1) * 100`; the strict minimum is taken,
so the blended score never exceeds 0.7 times the ML fraud score, nor the
rule score. -/
theorem C1_blend_formula (f : Features) (p : Option Profile) (raw : ℚ) :
    (predict_fraud f p (some raw)).fraudScore
      = pyRound (max 0 (min 100 (applyCaps f p.isSome
          (normalize_score (min ((max 0 (min 1 (1/2 - raw)) * 100) * (7/10))
            (compute_rule_based_score f p).1))))) 1
  ∧ min ((max 0 (min 1 (1/2 - raw)) * 100) * (7/10)) (compute_rule_based_score f p).1
      ≤ (max 0 (min 1 (1/2 - raw)) * 100) * (7/10)
  ∧ min ((max 0 (min 1 (1/2 - raw)) * 100) * (7/10)) (compute_rule_based_score f p).1
      ≤ (compute_rule_based_score f p).1 :=
  ⟨rfl, min_le_left _ _, min_le_right _ _⟩

/-- C2: when a profile was found and `signature_score ≥ 70` the final fraud
score is at most 45; additionally with `bounce_rate = 0` and
`account_age_days > 60` it is at most 35; the caps only ever lower the
score, and are not applied when no profile was found. -/
theorem C2_profile_caps (f : Features) (p : Profile) (mlRaw : Option ℚ)
    (hsig : f.signature_score ≥ 70) :
    (predict_fraud f (some p) mlRaw).fraudScore ≤ 45
  ∧ (f.bounce_rate = 0 → f.account_age_days > 60 →
      (predict_fraud f (some p) mlRaw).fraudScore ≤ 35)
  ∧ (∀ g : Features, ∀ hp : Bool, ∀ s : ℚ, applyCaps g hp s ≤ s)
  ∧ (∀ g : Features, ∀ s : ℚ, applyCaps g false s = s) := by
  refine ⟨?_, ?_, fun g hp s => applyCaps_le g hp s, fun g s => applyCaps_false g s⟩
  · simp only [predict_fraud, Option.isSome]
    exact pyRound_clamp_le_45 (applyCaps_le_45 hsig _)
  · intro hb ha
    simp only [predict_fraud, Option.isSome]
    exact pyRound_clamp_le_35 (applyCaps_le_35 hsig hb ha _)

/-- Witness for C2 at a concrete evaluation: `baseFeatures` with an (empty)
profile found, signature score 85 ≥ 70, zero bounce rate and account age
365 > 60. -/
theorem C2_profile_caps_witness :
    baseFeatures.signature_score ≥ 70
  ∧ baseFeatures.bounce_rate = 0
  ∧ baseFeatures.account_age_days > 60
  ∧ (predict_fraud baseFeatures (some baseProfile) none).fraudScore ≤ 45
  ∧ (predict_fraud baseFeatures (some baseProfile) none).fraudScore ≤ 35 := by
  have hsig : baseFeatures.signature_score ≥ 70 := by norm_num [baseFeatures]
  have hb : baseFeatures.bounce_rate = 0 := by norm_num [baseFeatures]
  have ha : baseFeatures.account_age_days > 60 := by norm_num [baseFeatures]
  have h := C2_profile_caps baseFeatures baseProfile none hsig
  exact ⟨hsig, hb, ha, h.1, h.2.1 hb ha⟩

/-- C3: with no anomaly model, the final fraud score is exactly the
rule-based score after the post-hoc caps and rounding to one decimal. -/
theorem C3_fallback_equivalence (f : Features) (p : Option Profile) :
    (predict_fraud f p none).fraudScore
      = pyRound (applyCaps f p.isSome (compute_rule_based_score f p).1) 1 := by
  obtain ⟨h0, h100⟩ := compute_rule_based_score_bounds f p
  have hn : normalize_score (compute_rule_based_score f p).1
      = pyRound (compute_rule_based_score f p).1 1 := by
    unfold normalize_score
    rw [clamp_eq_of h0 h100]
  simp only [predict_fraud]
  rw [hn, applyCaps_pyRound]
  have hA0 : 0 ≤ applyCaps f p.isSome (compute_rule_based_score f p).1 :=
    applyCaps_nonneg _ _ h0
  have hA100 : applyCaps f p.isSome (compute_rule_based_score f p).1 ≤ 100 :=
    (applyCaps_le _ _ _).trans h100
  rw [clamp_eq_of (pyRound_nonneg hA0 1) (pyRound_le_hundred hA100 1), pyRound_idem]

/-- C4: the risk tier and decision are determined solely by the fixed
threshold table over the final score, evaluated high-to-low:
`≥70 → critical/reject`, `[50,70) → high/review`, `[30,50) → medium/review`,
`<30 → low/approve`. -/
theorem C4_risk_thresholds (f : Features) (p : Option Profile) (m : Option ℚ) :
    ((predict_fraud f p m).fraudScore ≥ 70 →
        (predict_fraud f p m).riskLevel = "critical"
      ∧ (predict_fraud f p m).decision = "reject")
  ∧ (50 ≤ (predict_fraud f p m).fraudScore ∧ (predict_fraud f p m).fraudScore < 70 →
        (predict_fraud f p m).riskLevel = "high"
      ∧ (predict_fraud f p m).decision = "review")
  ∧ (30 ≤ (predict_fraud f p m).fraudScore ∧ (predict_fraud f p m).fraudScore < 50 →
        (predict_fraud f p m).riskLevel = "medium"
      ∧ (predict_fraud f p m).decision = "review")
  ∧ ((predict_fraud f p m).fraudScore < 30 →
        (predict_fraud f p m).riskLevel = "low"
      ∧ (predict_fraud f p m).decision = "approve") := by
  refine ⟨fun h => ?_, fun h => ?_, fun h => ?_, fun h => ?_⟩
  · constructor
    · rw [predict_riskLevel_eq, if_pos h]
    · rw [predict_decision_eq, if_pos h]
  · obtain ⟨h1, h2⟩ := h
    constructor
    · rw [predict_riskLevel_eq, if_neg (by linarith), if_pos (by linarith :
        (predict_fraud f p m).fraudScore ≥ 50)]
    · rw [predict_decision_eq, if_neg (by linarith), if_pos (by linarith :
        (predict_fraud f p m).fraudScore ≥ 50)]
  · obtain ⟨h1, h2⟩ := h
    constructor
    · rw [predict_riskLevel_eq, if_neg (by linarith), if_neg (by linarith),
        if_pos (by linarith : (predict_fraud f p m).fraudScore ≥ 30)]
    · rw [predict_decision_eq, if_neg (by linarith), if_neg (by linarith),
        if_pos (by linarith : (predict_fraud f p m).fraudScore ≥ 30)]
  · constructor
    · rw [predict_riskLevel_eq, if_neg (by linarith), if_neg (by linarith),
        if_neg (by linarith)]
    · rw [predict_decision_eq, if_neg (by linarith), if_neg (by linarith),
        if_neg (by linarith)]

/-- Witness for C4 at a concrete evaluation: the score 0 of `baseFeatures`
with no profile and no model falls in the `<30` band, giving low/approve. -/
theorem C4_risk_thresholds_witness :
    (predict_fraud baseFeatures none none).fraudScore < 30
  ∧ (predict_fraud baseFeatures none none).riskLevel = "low"
  ∧ (predict_fraud baseFeatures none none).decision = "approve" := by
  have hlt : (predict_fraud baseFeatures none none).fraudScore < 30 := by
    rw [predict_base_eval]
    norm_num
  have h := (C4_risk_thresholds baseFeatures none none).2.2.2 hlt
  exact ⟨hlt, h.1, h.2⟩

/-- C5: for every input, the rule-based score lies in [0,100], the final
fraud score lies in [0,100], and the confidence lies in [0, 0.99]. -/
theorem C5_bounds (f : Features) (p : Option Profile) (m : Option ℚ) :
    (0 ≤ (compute_rule_based_score f p).1 ∧ (compute_rule_based_score f p).1 ≤ 100)
  ∧ (0 ≤ (predict_fraud f p m).fraudScore ∧ (predict_fraud f p m).fraudScore ≤ 100)
  ∧ (0 ≤ (predict_fraud f p m).confidence ∧ (predict_fraud f p m).confidence ≤ 99/100) := by
  refine ⟨compute_rule_based_score_bounds f p, ?_, ?_⟩
  · simp only [predict_fraud]
    exact ⟨pyRound_nonneg (clamp_nonneg _) 1, pyRound_le_hundred (clamp_le_hundred _) 1⟩
  · simp only [predict_fraud]
    exact compute_confidence_score_bounds f _

/-- C6 counterexample: the claim as stated is false, because the rule
engine scores `abs(amount_zscore)` (line 369).  The feature vector with
`amount_zscore = -11` has the smaller z-score yet the strictly larger rule
score (25 versus 0). -/
theorem C6_monotonicity_counterexample :
    ({ baseFeatures with amount_zscore := -11 } : Features).amount_zscore
        < baseFeatures.amount_zscore
  ∧ (compute_rule_based_score baseFeatures none).1
      < (compute_rule_based_score { baseFeatures with amount_zscore := -11 } none).1 := by
  constructor
  · norm_num [baseFeatures]
  · have h1 : (compute_rule_based_score baseFeatures none).1 = 0 := by
      rw [rule_score_base_eval]
    rw [h1, rule_score_neg11_eval]
    norm_num

/-- C6 amended: the rule score is monotone in `|amount_zscore|` (for
nonnegative z-scores this is the original claim), and antitone in
`signature_score`, all else held fixed. -/
theorem C6_monotonicity_amended (f : Features) (p : Option Profile) (z₁ z₂ s₁ s₂ : ℚ)
    (hz : |z₁| ≤ |z₂|) (hs : s₂ ≤ s₁) :
    (compute_rule_based_score { f with amount_zscore := z₁ } p).1
      ≤ (compute_rule_based_score { f with amount_zscore := z₂ } p).1
  ∧ (compute_rule_based_score { f with signature_score := s₁ } p).1
      ≤ (compute_rule_based_score { f with signature_score := s₂ } p).1 := by
  constructor
  · simp only [compute_rule_based_score, rulePointsTotal, trustDiscount]
    have hA := amountRule_mono hz
    have hD : 0 ≤ 1 - min (if p.isSome then
        discBounce f.bounce_rate + discAge f.account_age_days + discSig f.signature_score
        else 0) (15/100) := by
      have := min_le_right (if p.isSome then
        discBounce f.bounce_rate + discAge f.account_age_days + discSig f.signature_score
        else 0) (15/100 : ℚ)
      linarith
    refine max_le_max le_rfl (min_le_min le_rfl ?_)
    exact mul_le_mul_of_nonneg_right (min_le_min le_rfl (by linarith)) hD
  · simp only [compute_rule_based_score, rulePointsTotal, trustDiscount]
    have hS := signatureRule_anti hs
    have hd := discSig_mono hs
    have hT1 : (amountRule f.amount_zscore).1 + (balanceRule f.amount_to_balance_ratio).1 +
        (maxRule f.is_above_max f.amount_to_max_ratio).1 +
        (payeeRule f.is_new_payee f.payee_name).1 + (ageRule f.account_age_days).1 +
        (nightRule f.is_night_transaction).1 +
        (dormantRule f.is_dormant f.days_since_last_txn).1 + (signatureRule s₁).1 +
        (bounceRule f.bounce_rate).1
        ≤ (amountRule f.amount_zscore).1 + (balanceRule f.amount_to_balance_ratio).1 +
        (maxRule f.is_above_max f.amount_to_max_ratio).1 +
        (payeeRule f.is_new_payee f.payee_name).1 + (ageRule f.account_age_days).1 +
        (nightRule f.is_night_transaction).1 +
        (dormantRule f.is_dormant f.days_since_last_txn).1 + (signatureRule s₂).1 +
        (bounceRule f.bounce_rate).1 := by linarith
    have hT2nn : 0 ≤ (amountRule f.amount_zscore).1 + (balanceRule f.amount_to_balance_ratio).1 +
        (maxRule f.is_above_max f.amount_to_max_ratio).1 +
        (payeeRule f.is_new_payee f.payee_name).1 + (ageRule f.account_age_days).1 +
        (nightRule f.is_night_transaction).1 +
        (dormantRule f.is_dormant f.days_since_last_txn).1 + (signatureRule s₂).1 +
        (bounceRule f.bounce_rate).1 := by
      have h1 := amountRule_nonneg f.amount_zscore
      have h2 := balanceRule_nonneg f.amount_to_balance_ratio
      have h3 := maxRule_nonneg f.is_above_max f.amount_to_max_ratio
      have h4 := payeeRule_nonneg f.is_new_payee f.payee_name
      have h5 := ageRule_nonneg f.account_age_days
      have h6 := nightRule_nonneg f.is_night_transaction
      have h7 := dormantRule_nonneg f.is_dormant f.days_since_last_txn
      have h8 := signatureRule_nonneg s₂
      have h9 := bounceRule_nonneg f.bounce_rate
      linarith
    cases p with
    | none =>
        simp only [Option.isSome, if_neg]
        refine max_le_max le_rfl (min_le_min le_rfl ?_)
        have hD : (0:ℚ) ≤ 1 - min 0 (15/100) := by norm_num
        exact mul_le_mul (min_le_min le_rfl hT1) le_rfl hD
          (le_min (by norm_num) hT2nn)
    | some pr =>
        simp only [Option.isSome, if_pos]
        have hmin : min (discBounce f.bounce_rate + discAge f.account_age_days + discSig s₂)
            (15/100 : ℚ)
            ≤ min (discBounce f.bounce_rate + discAge f.account_age_days + discSig s₁)
            (15/100) := min_le_min (by linarith) le_rfl
        have hm1 : (0:ℚ) ≤ 1 - min (discBounce f.bounce_rate + discAge f.account_age_days +
            discSig s₁) (15/100) := by
          have := min_le_right (discBounce f.bounce_rate + discAge f.account_age_days +
            discSig s₁) (15/100 : ℚ)
          linarith
        refine max_le_max le_rfl (min_le_min le_rfl ?_)
        exact mul_le_mul (min_le_min le_rfl hT1) (by linarith) hm1
          (le_min (by norm_num) hT2nn)

/-- Witness for C6 amended at concrete inputs: `|1| ≤ |3|` and `50 ≤ 85`
on `baseFeatures` with an (empty) profile found. -/
theorem C6_monotonicity_witness :
    |(1:ℚ)| ≤ |(3:ℚ)|
  ∧ (50:ℚ) ≤ 85
  ∧ (compute_rule_based_score { baseFeatures with amount_zscore := 1 } (some baseProfile)).1
      ≤ (compute_rule_based_score { baseFeatures with amount_zscore := 3 } (some baseProfile)).1
  ∧ (compute_rule_based_score { baseFeatures with signature_score := 85 } (some baseProfile)).1
      ≤ (compute_rule_based_score { baseFeatures with signature_score := 50 } (some baseProfile)).1 := by
  have h := C6_monotonicity_amended baseFeatures (some baseProfile) 1 3 85 50
    (by norm_num) (by norm_num)
  exact ⟨by norm_num, by norm_num, h.1, h.2⟩

/-- C7: in the scenario evaluation (amount 10000, payee "John Doe", no
profile, empty history, signature score 85, daytime processing), the
feature builder sets `is_new_payee = 1` and never writes the `payee_name`
key, so the rule engine's lookup gets `''` — a trusted alias — and the
`new_payee` rule adds 0 points and records no trigger, although the claim
(and the rule's own intent, shown by the last conjunct: with the payee
name actually supplied the rule yields +3) expects +3 and a `new_payee`
trigger as the only contribution. -/
theorem C7_new_payee_never_fires :
    compute_features_for_cheque scenarioCheque none [] 85 scenarioClock = baseFeatures
  ∧ baseFeatures.is_new_payee = 1
  ∧ baseFeatures.payee_name = none
  ∧ (payeeRule baseFeatures.is_new_payee baseFeatures.payee_name).1 = 0
  ∧ (payeeRule 1 (some "John Doe")).1 = 3
  ∧ (compute_rule_based_score baseFeatures none).1 = 0
  ∧ (compute_rule_based_score baseFeatures none).2 = [] := by
  refine ⟨features_scenario_eval, by norm_num [baseFeatures], rfl, ?_, ?_, ?_, ?_⟩
  · norm_num [baseFeatures, payeeRule_none]
  · rw [payeeRule_john]
  · rw [rule_score_base_eval]
  · rw [rule_score_base_eval]

/-- C8 counterexample: with no profile, the trust discounts are not applied
even though every discount condition holds on the features (zero bounce
rate, age 365 > 180, signature 85 ≥ 80): the code yields 4 while the
claim's formula yields 4 · (1 − 0.15) = 3.4. -/
theorem C8_discount_counterexample :
    (compute_rule_based_score nightFeatures none).1 = 4
  ∧ claimed_discounted_score nightFeatures = 17/5
  ∧ (compute_rule_based_score nightFeatures none).1 ≠ claimed_discounted_score nightFeatures := by
  have h1 : (compute_rule_based_score nightFeatures none).1 = 4 := by
    rw [rule_score_night_eval]
  refine ⟨h1, claimed_disc_eval, ?_⟩
  rw [h1, claimed_disc_eval]
  norm_num

/-- C8 amended: the summed rule points are multiplied by
`1 − min(totalDiscount, 0.15)` and clamped to [0,100], where the discounts
(5% zero bounce rate; 5% age > 180 else 3% age > 60; 5% signature ≥ 80
else 3% ≥ 70) are eligible only when a profile was found; with no profile
the multiplier is 1. -/
theorem C8_discount_amended (f : Features) (p : Option Profile) :
    (compute_rule_based_score f p).1
      = max 0 (min 100 (rulePointsTotal f *
          (1 - (if p.isSome then min (trustDiscount f) (15/100) else 0)))) := by
  have hle := rulePointsTotal_le_hundred f
  simp only [compute_rule_based_score]
  rw [min_eq_right hle]
  cases p with
  | none => norm_num
  | some pr => norm_num

/-- C9 counterexample: a profile with positive stddev (5) but negative
historical max (−3): the builder computes `amount_to_max_ratio = 1` for
the non-positive denominator, while the claim demands 0. -/
theorem C9_amount_features_counterexample :
    0 < maxProfile.stddev_transaction_amt.getD 0
  ∧ pyOr maxProfile.max_transaction_amt (chequeAmount maxCheque) ≤ 0
  ∧ (compute_features_for_cheque maxCheque (some maxProfile) [] 85
      scenarioClock).amount_to_max_ratio = 1
  ∧ claimed_amount_to_max_ratio (chequeAmount maxCheque)
      (pyOr maxProfile.max_transaction_amt (chequeAmount maxCheque)) = 0
  ∧ (compute_features_for_cheque maxCheque (some maxProfile) [] 85
      scenarioClock).amount_to_max_ratio
      ≠ claimed_amount_to_max_ratio (chequeAmount maxCheque)
        (pyOr maxProfile.max_transaction_amt (chequeAmount maxCheque)) := by
  norm_num [maxProfile, maxCheque, chequeAmount, pyOr, compute_features_for_cheque,
    claimed_amount_to_max_ratio, scenarioClock]

/-- C9 amended: the amount-feature branch is gated on the stddev field
being present and nonzero (not positive); inside it,
`amount_zscore = (amount − avg)/stddev` when stddev > 0 (else 0) and
`amount_to_max_ratio = amount/max` when the resolved max > 0 (else 1, not
0); outside it both default to 0 and 1.  `amount_to_balance_ratio` uses
the resolved balance (profile balance when nonzero, else the assumed
100000), defaulting to 10 when that balance is ≤ 0. -/
theorem C9_amount_features_amended (c : ChequeData) (p : Option Profile) (txns : List Txn)
    (sig : ℚ) (clk : Clock) :
    ((compute_features_for_cheque c p txns sig clk).amount_zscore
      = match p with
        | some pr =>
            if pr.stddev_transaction_amt.getD 0 ≠ 0 then
              if pyOr pr.stddev_transaction_amt 1 > 0 then
                (chequeAmount c - pyOr pr.avg_transaction_amt 0) /
                  pyOr pr.stddev_transaction_amt 1
              else 0
            else 0
        | none => 0)
  ∧ ((compute_features_for_cheque c p txns sig clk).amount_to_max_ratio
      = match p with
        | some pr =>
            if pr.stddev_transaction_amt.getD 0 ≠ 0 then
              if pyOr pr.max_transaction_amt (chequeAmount c) > 0 then
                chequeAmount c / pyOr pr.max_transaction_amt (chequeAmount c)
              else 1
            else 1
        | none => 1)
  ∧ ((compute_features_for_cheque c p txns sig clk).amount_to_balance_ratio
      = (if (match p with | some pr => pyOr pr.balance 100000 | none => 100000) > 0 then
           chequeAmount c / (match p with | some pr => pyOr pr.balance 100000 | none => 100000)
         else 10)) := by
  cases p with
  | none => refine ⟨rfl, rfl, rfl⟩
  | some pr =>
      refine ⟨?_, ?_, rfl⟩
      · simp only [compute_features_for_cheque]
        split_ifs <;> rfl
      · simp only [compute_features_for_cheque]
        split_ifs <;> rfl

/-- C10 counterexample: an evaluation with the model available
(`some 0`) whose rule engine does trigger a rule (night transaction):
the code passes `[]` to the confidence computation and reports 0.88,
while the claim's formula (bonus regardless of path) gives 0.90. -/
theorem C10_confidence_counterexample :
    compute_features_for_cheque scenarioCheque none [] 85 nightClock = nightFeatures
  ∧ (compute_rule_based_score nightFeatures none).2 ≠ []
  ∧ (predict_fraud nightFeatures none (some 0)).confidence = 88/100
  ∧ claimed_confidence nightFeatures true = 9/10
  ∧ (predict_fraud nightFeatures none (some 0)).confidence
      ≠ claimed_confidence nightFeatures true := by
  refine ⟨features_night_eval, ?_, predict_night_conf_eval, claimed_conf_eval, ?_⟩
  · rw [rule_score_night_eval]
    simp
  · rw [predict_night_conf_eval, claimed_conf_eval]
    norm_num

/-- C10 amended: the confidence is the capped, rounded sum of the stated
terms, but the +0.02 triggered-rule bonus applies only on the rule-based
fallback path: when the model is used, the empty trigger list is passed
and the bonus never applies. -/
theorem C10_confidence_amended (f : Features) (p : Option Profile) (mlRaw : Option ℚ) :
    (predict_fraud f p mlRaw).confidence
      = pyRound (min (99/100) (3/4
          + (if f.amount_zscore ≠ 0 then 5/100 else 0)
          + (if f.account_age_days > 0 then 5/100 else 0)
          + (if f.signature_score > 0 then 8/100 else 0)
          + (if mlRaw.isNone ∧ (compute_rule_based_score f p).2 ≠ [] then 2/100 else 0))) 4 := by
  cases mlRaw with
  | some raw =>
      simp only [predict_fraud, compute_confidence_score, Option.isSome, Option.isNone,
        if_true, List.length_nil, lt_irrefl, if_false]
      norm_num
      split_ifs <;> norm_num
  | none =>
      simp only [predict_fraud, compute_confidence_score, Option.isSome, Option.isNone,
        if_false, if_true, List.length_pos]
      norm_num
      split_ifs <;> norm_num

end SmartBank

